import Mathlib

/-!
# Verification of the ytmdl download-and-assemble pipeline

Shallow embedding of the core pipeline of the `ytmdl` repository
(`src/download.rs`, `src/utils.rs`, `src/scraping/youtube.rs`,
`src/gui/view_modifying_data.rs`).  External effects (subprocess
invocations, HTTP requests, the filesystem, environment variables) are
passed in explicitly as oracle values/functions; the Rust control flow
around them is translated directly.
-/

namespace Ytmdl

/-- Model of Rust's `Cow<'_, str>`: either the borrowed input string (no
allocation) or a freshly allocated owned string. -/
inductive Cow where
  | borrowed (s : String)
  | owned (s : String)
  deriving DecidableEq, Repr

/-- The string content of a `Cow`, ignoring ownership. -/
def Cow.value : Cow → String
  | .borrowed s => s
  | .owned s => s

/-! ## `src/utils.rs` -/

/-- `utils.rs` line 21: `static ILLEGAL_CHARS: &[char]`. -/
def ILLEGAL_CHARS : List Char := ['<', '>', ':', '"', '/', '\\', '|', '?', '*']

/-- `utils.rs` lines 23–28, `contains_illegal_chars`.  The `to_str()`
conversion always succeeds because the caller passes a `&str`, so it is
`str::contains` over the characters. -/
def contains_illegal_chars (path : String) : Bool :=
  path.toList.any (fun c => ILLEGAL_CHARS.contains c)

/-- `utils.rs` lines 30–43, `sanitize_file_name`: if the name contains an
illegal character, build a new string from the characters that are not
illegal; otherwise return the input borrowed. -/
def sanitize_file_name (name : String) : Cow :=
  if contains_illegal_chars name then
    Cow.owned ⟨name.toList.filter (fun ch => !ILLEGAL_CHARS.contains ch)⟩
  else
    Cow.borrowed name

/-- `utils.rs` lines 5–19, `reduce_vec_of_results`: all `Ok` values in
order, or the first `Err`. -/
def reduce_vec_of_results {T E : Type} : List (Except E T) → Except E (List T)
  | [] => Except.ok []
  | res :: rest =>
    match res with
    | Except.ok val => (reduce_vec_of_results rest).map (fun out => val :: out)
    | Except.error err => Except.error err

/-! ## `src/scraping/youtube.rs` -/

/-- `youtube.rs` lines 15–37, `YoutubeVideo`; only the fields the pipeline
reads (`id`, and `title` for completeness) are retained, the remaining
scraped fields are never consumed by the download pipeline. -/
structure YoutubeVideo where
  id : String
  title : String
  deriving DecidableEq, Repr

/-- `youtube.rs` lines 7–13, `ScrapeYoutubeError`.  The payloads of the
wrapped `std::io::Error` and `serde_json::Error` are opaque; they are
modelled as strings. -/
inductive ScrapeYoutubeError where
  | IoError (e : String)
  | SerdeJsonError (e : String)
  deriving DecidableEq, Repr

/-- Result of `std::process::Command::output()`: exit-status success flag
plus captured stdout and stderr (as lossily decoded strings). -/
structure CmdOut where
  success : Bool
  stdout : String
  stderr : String
  deriving DecidableEq, Repr

/-- Split a character list at every occurrence of `sep` (the separator is
dropped; adjacent separators yield empty pieces), as `slice::split` does
on the stdout bytes with `b'\n'` — a `'\n'` byte never occurs inside a
multi-byte UTF-8 character, so the byte split is the character split. -/
def splitOnChar (sep : Char) : List Char → List (List Char)
  | [] => [[]]
  | c :: cs =>
    if c = sep then [] :: splitOnChar sep cs
    else
      match splitOnChar sep cs with
      | [] => [[c]]
      | l :: ls => (c :: l) :: ls

/-- The newline split of a string, each piece re-packed as a string. -/
def split_lines (s : String) : List String :=
  (splitOnChar '\n' s.toList).map (fun l => ⟨l⟩)

/-- `youtube.rs` lines 51–64, `scrape_youtube`.  `cmd` is the outcome of
spawning `yt-dlp --skip-download --dump-json <url>` (`Except.error` models
the `io::Error` of `.output()`; the exit status is not inspected by the
source).  `parse` is the oracle for `serde_json::de::from_slice` on one
line.  The stdout bytes are split on newlines and empty lines dropped. -/
def scrape_youtube (cmd : Except String CmdOut)
    (parse : String → Except String YoutubeVideo) :
    Except ScrapeYoutubeError (List YoutubeVideo) :=
  match cmd with
  | Except.error e => Except.error (ScrapeYoutubeError.IoError e)
  | Except.ok out =>
    let video_datas :=
      (((split_lines out.stdout).filter (fun s => s ≠ "")).map parse)
    (reduce_vec_of_results video_datas).mapError ScrapeYoutubeError.SerdeJsonError

/-! ## URL model (`url` crate, used by `utils.rs::music_to_www`)

`music_to_www` relies on the external `url` crate.  The crate is modelled
for the URLs this program handles: absolute `http`/`https` URLs with an
ASCII authority and no userinfo/port.  Parsing strips the scheme prefix,
takes the host up to the first `/`, `?` or `#`, lower-cases it, and keeps
the remainder verbatim; serialization re-normalizes an absent path to `/`
as the crate does for special schemes. -/

/-- ASCII lower-casing of one character, as the `url` crate applies to
hosts. -/
def lowerAscii (c : Char) : Char :=
  if 'A' ≤ c ∧ c ≤ 'Z' then Char.ofNat (c.toNat + 32) else c

/-- Characters accepted in a modelled host (ASCII registered names). -/
def isHostChar (c : Char) : Bool :=
  c.isAlphanum || c = '.' || c = '-' || c = '_'

/-- Strip `pre` from the front of `s`, returning the remainder. -/
def stripPrefixList : List Char → List Char → Option (List Char)
  | [], s => some s
  | _ :: _, [] => none
  | p :: ps, c :: cs => if c = p then stripPrefixList ps cs else none

/-- Split off the authority: everything up to the first `/`, `?` or `#`. -/
def splitHost : List Char → List Char × List Char
  | [] => ([], [])
  | c :: cs =>
    if c = '/' ∨ c = '?' ∨ c = '#' then ([], c :: cs)
    else
      let (h, r) := splitHost cs
      (c :: h, r)

/-- Parsed URL: scheme, lower-cased host, and the rest (path + query +
fragment) verbatim. -/
structure Url where
  scheme : String
  host : String
  rest : String
  deriving DecidableEq, Repr

/-- Serialization (`Url::to_string`): an empty or non-`/`-led remainder
gains the `/` the crate inserts for special schemes. -/
def Url.serialize (u : Url) : String :=
  u.scheme ++ "://" ++ u.host ++
    (if u.rest = "" then "/"
     else if u.rest.toList.head? = some '/' then u.rest
     else "/" ++ u.rest)

/-- Build a URL from the post-scheme characters; fails on an empty or
non-ASCII-registered-name host. -/
def mkUrl (scheme : String) (r : List Char) : Option Url :=
  let (h, rest) := splitHost r
  if h.isEmpty ∨ !h.all isHostChar then none
  else some ⟨scheme, ⟨h.map lowerAscii⟩, ⟨rest⟩⟩

/-- `Url::parse`, restricted as described above. -/
def urlParse (s : String) : Option Url :=
  match stripPrefixList "https://".toList s.toList with
  | some r => mkUrl "https" r
  | none =>
    match stripPrefixList "http://".toList s.toList with
    | some r => mkUrl "http" r
    | none => none

/-- `utils.rs` lines 121–134, `music_to_www`: parse the URL; if the host is
not already `www.youtube.com`, set it to `www.youtube.com` (which always
succeeds for this fixed valid host on an http(s) URL) and return the
re-serialized URL owned; otherwise return the input borrowed. -/
def music_to_www (url : String) : Cow :=
  match urlParse url with
  | some parsed_url =>
    if parsed_url.host ≠ "www.youtube.com" then
      Cow.owned (Url.serialize { parsed_url with host := "www.youtube.com" })
    else
      Cow.borrowed url
  | none => Cow.borrowed url

/-! ## `src/scraping/youtube_playlist.rs` (playlist model) -/

/-- `youtube_playlist.rs` lines 36–40, `PlaylistItem`. -/
structure PlaylistItem where
  title : Option String
  id : Option String
  deriving DecidableEq, Repr

/-- `youtube_playlist.rs` lines 16–22, `Playlist`. -/
structure Playlist where
  title : String
  artist : String
  thumbnail : String
  tracks : List PlaylistItem
  deriving DecidableEq, Repr

/-! ## `src/gui/view_modifying_data.rs` (shared state) -/

/-- `view_modifying_data.rs` lines 41–44, `TrackData`. -/
structure TrackData where
  name : String
  deriving DecidableEq, Repr

/-- `view_modifying_data.rs` lines 20–27, `AlbumData`.  The `released`
field is read by `download.rs` line 285 but its declaration is not in the
struct under `src/`; modelled from the spec: "optional exact release
date" (an opaque timestamp). -/
structure AlbumData where
  name : String
  artist : String
  genre : String
  year : Int
  image : String
  released : Option Int
  deriving DecidableEq, Repr

/-- `view_modifying_data.rs` lines 13–18, `StateModifyingData`. -/
structure StateModifyingData where
  youtube_url : String
  album_data : AlbumData
  track_data : List TrackData
  deriving DecidableEq, Repr

/-! ## `src/download.rs` -/

/-- `download.rs` lines 22–38, `DownloadError`.  Payloads of wrapped
foreign errors (`std::io::Error`, `id3::Error`) are opaque strings. -/
inductive DownloadError where
  | ScrapeYoutubeError (e : ScrapeYoutubeError)
  | IoError (e : String)
  | YtdlpError (id : String)
  | FfmpegError (id : String)
  | TmpDirError
  | Id3Error (e : String)
  | MultipleErrors (errs : List DownloadError)
  deriving Repr

/-- The track identifier carried by a `DownloadError` variant, if any:
only `YtdlpError` and `FfmpegError` embed the identifier. -/
def DownloadError.trackId : DownloadError → Option String
  | DownloadError.YtdlpError id => some id
  | DownloadError.FfmpegError id => some id
  | _ => none

/-- Loop body of `get_ids` (`download.rs` lines 142–151): push each present
id; stop and discard everything on the first absent one. -/
def collect_ids : List PlaylistItem → Option (List String)
  | [] => some []
  | track :: rest =>
    match track.id with
    | some id => (collect_ids rest).map (fun out => id :: out)
    | none => none

/-- `download.rs` lines 136–161, `get_ids`.  `scrape_playlist` is the
oracle for the structured-page scrape of `youtube_playlist.rs` (its error
payload is opaque); `ytdlp_dump`/`parseVideo` feed the real
`scrape_youtube` fallback.  The second component records whether the
external fallback tool was invoked. -/
def get_ids (url : String)
    (scrape_playlist : String → Except String Playlist)
    (ytdlp_dump : String → Except String CmdOut)
    (parseVideo : String → Except String YoutubeVideo) :
    Except DownloadError (List String) × Bool :=
  let url := (music_to_www url).value
  let fallback : Except DownloadError (List String) × Bool :=
    (((scrape_youtube (ytdlp_dump url) parseVideo).map
        (fun ts => ts.map YoutubeVideo.id)).mapError
      DownloadError.ScrapeYoutubeError, true)
  match scrape_playlist url with
  | Except.ok scraped_playlist =>
    match collect_ids scraped_playlist.tracks with
    | some out => (Except.ok out, false)
    | none => fallback
  | Except.error _ => fallback

/-- A `reqwest::blocking` HTTP response as `get_image` consumes it: the
numeric status (never inspected by the source), the `Content-Type` header
already decoded to a string if present and ASCII-decodable, and the body
bytes if readable (`resp.bytes().ok()`). -/
structure HttpResponse where
  status : Nat
  contentType : Option String
  bytes : Option (List Nat)
  deriving DecidableEq, Repr

/-- `download.rs` lines 163–181, `get_image`: a transport error yields
`(none, none)`; any received response yields its content type and body
bytes — the status code is not consulted. -/
def get_image (resp : Except String HttpResponse) :
    Option (List Nat) × Option String :=
  match resp with
  | Except.error _ => (none, none)
  | Except.ok resp => (resp.bytes, resp.contentType)

/-- Rust `str::trim_end`: drop trailing whitespace characters. -/
def trim_end (s : String) : String :=
  ⟨(s.toList.reverse.dropWhile Char.isWhitespace).reverse⟩

/-- `download.rs` lines 199–226, `generate_path_name`: spawn failure
becomes `IoError`, a nonzero exit becomes `YtdlpError id`, otherwise the
trailing-whitespace-trimmed stdout is the path. -/
def generate_path_name (cmd : Except String CmdOut) (id : String) :
    Except DownloadError String :=
  match cmd with
  | Except.error e => Except.error (DownloadError.IoError e)
  | Except.ok output =>
    if !output.success then Except.error (DownloadError.YtdlpError id)
    else Except.ok (trim_end output.stdout)

/-- `download.rs` lines 228–247, `dl_from_yt`. -/
def dl_from_yt (cmd : Except String CmdOut) (id : String) :
    Except DownloadError Unit :=
  match cmd with
  | Except.error e => Except.error (DownloadError.IoError e)
  | Except.ok output =>
    if !output.success then Except.error (DownloadError.YtdlpError id)
    else Except.ok ()

/-! ### Path model (`std::path`, for `convert_to_mp3`)

Paths are modelled as strings without `.`/`..` components or trailing
separators — the shape `yt-dlp` prints (`<tmp>/<index>.<ext>`). -/

/-- `Path::file_name`: the part after the last `/`. -/
def path_file_name (p : String) : Option String :=
  let f := (p.toList.reverse.takeWhile (fun c => c ≠ '/')).reverse
  if f = [] ∨ f = ['.'] ∨ f = ['.', '.'] then none else some ⟨f⟩

/-- `Path::extension`: the part of the file name after its last dot;
absent when there is no dot or the only dot is leading. -/
def path_extension (p : String) : Option String :=
  match path_file_name p with
  | none => none
  | some f =>
    let rev := f.toList.reverse
    let afterRev := rev.takeWhile (fun c => c ≠ '.')
    if afterRev.length = rev.length then none
    else if afterRev.length + 1 = rev.length then none
    else some ⟨afterRev.reverse⟩

/-- `PathBuf::set_extension ext`: replace the extension (or append one)
on the final component; a path with no file name is left unchanged. -/
def set_extension (p ext : String) : String :=
  let chars := p.toList
  let fRev := chars.reverse.takeWhile (fun c => c ≠ '/')
  let dir : String := ⟨(chars.reverse.drop fRev.length).reverse⟩
  let f := fRev.reverse
  match path_extension p with
  | some e => dir ++ (⟨f.take (f.length - (e.length + 1))⟩ : String) ++ "." ++ ext
  | none =>
    if (path_file_name p).isSome then dir ++ (⟨f⟩ : String) ++ "." ++ ext else p

/-- `OsStr::eq_ignore_ascii_case`. -/
def eq_ignore_ascii_case (a b : String) : Bool :=
  a.toList.map lowerAscii == b.toList.map lowerAscii

/-- `download.rs` lines 249–273, `convert_to_mp3`.  `ffmpeg` is the oracle
for the transcoder subprocess.  The second component records whether the
transcoder was invoked (the `else` branch of the extension test). -/
def convert_to_mp3 (ffmpeg : Except String CmdOut) (old_path id : String) :
    Except DownloadError String × Bool :=
  if (match path_extension old_path with
      | some ext => eq_ignore_ascii_case ext "mp3"
      | none => false) then
    (Except.ok old_path, false)
  else
    let path := set_extension old_path "mp3"
    match ffmpeg with
    | Except.error e => (Except.error (DownloadError.IoError e), true)
    | Except.ok output =>
      if output.success then (Except.ok path, true)
      else (Except.error (DownloadError.FfmpegError id), true)

/-- An embedded front-cover picture frame (`id3::frame::Picture` with
`PictureType::CoverFront` and an empty description, as built at
`download.rs` lines 293–300). -/
structure Picture where
  mime_type : String
  data : List Nat
  deriving DecidableEq, Repr

/-- The ID3 tag fields `generate_tags` sets (`id3::Tag` as used by the
source; the release date payload is opaque). -/
structure Tag where
  album : String
  year : Int
  date_released : Option Int
  track : Nat
  total_tracks : Nat
  artist : String
  genre : String
  title : String
  picture : Option Picture
  album_artist : String
  deriving DecidableEq, Repr

/-- `download.rs` lines 275–303, `generate_tags`.  `state.track_data[i]`
at line 292 panics when `i` is out of bounds, modelled by `none`.  The
`as u32` casts truncate. -/
def generate_tags (state : StateModifyingData) (i : Nat)
    (img : Option (List Nat)) (content_type : Option String) : Option Tag :=
  match state.track_data[i]? with
  | none => none
  | some td =>
    some {
      album := state.album_data.name
      year := state.album_data.year
      date_released := state.album_data.released
      track := (i + 1) % 2 ^ 32
      total_tracks := state.track_data.length % 2 ^ 32
      artist := state.album_data.artist
      genre := state.album_data.genre
      title := td.name
      picture :=
        match content_type, img with
        | some ct, some im => some ⟨ct, im⟩
        | _, _ => none
      album_artist := state.album_data.artist }

/-! ### Filesystem model (for `move_to_out_dir`)

A filesystem is a map from paths to contents (`none` = no such file). -/

def FS : Type := String → Option String

/-- Contents at a path. -/
def FS.lookup (fs : FS) (p : String) : Option String := fs p

/-- `Path::exists`. -/
def FS.existsPath (fs : FS) (p : String) : Bool :=
  (FS.lookup fs p).isSome

/-- `fs::remove_file`: errors when the file is absent. -/
def FS.removeFile (fs : FS) (p : String) : Except DownloadError FS :=
  if FS.existsPath fs p then
    Except.ok (fun q => if q = p then none else fs q)
  else Except.error (DownloadError.IoError "No such file or directory")

/-- `fs::copy`: errors when the source is absent; replaces any existing
destination contents. -/
def FS.copy (fs : FS) (src dst : String) : Except DownloadError FS :=
  match FS.lookup fs src with
  | none => Except.error (DownloadError.IoError "No such file or directory")
  | some contents => Except.ok (fun q => if q = dst then some contents else fs q)

/-- The overwrite-policy test inlined at `download.rs` line 331:
`env::var("YTMDL_OVERWRITE").map_or(true, |v| v.as_str() == "true")` —
an unset (or non-unicode) variable defaults to `true`, otherwise the
value is compared case-sensitively to `"true"`. -/
def overwrite_enabled (envOverwrite : Option String) : Bool :=
  match envOverwrite with
  | none => true
  | some v => v == "true"

/-- `download.rs` lines 305–348, `move_to_out_dir`.  `state.track_data[i]`
at line 316 panics when out of bounds (`none`).  The function returns the
updated filesystem so the effect is observable (the source returns `()`);
the missing-scratch-file check at lines 327–329 only logs.  In the source
the overwrite branch removes the destination and falls through to the
shared copy-then-delete tail; the fall-through is duplicated here. -/
def move_to_out_dir (envOverwrite : Option String) (fs : FS) (i : Nat)
    (state : StateModifyingData) (old_path : String) (out_dir : String) :
    Option (Except DownloadError FS) :=
  match state.track_data[i]? with
  | none => none
  | some td =>
    let out_file_path :=
      out_dir ++ "/" ++
        (sanitize_file_name
          (state.album_data.artist ++ " - " ++ state.album_data.name ++ " - "
            ++ td.name ++ ".mp3")).value
    some (
      if FS.existsPath fs out_file_path then
        if overwrite_enabled envOverwrite then
          match FS.removeFile fs out_file_path with
          | Except.error e => Except.error e
          | Except.ok fs1 =>
            match FS.copy fs1 old_path out_file_path with
            | Except.error e => Except.error e
            | Except.ok fs2 => FS.removeFile fs2 old_path
        else
          FS.removeFile fs old_path
      else
        match FS.copy fs old_path out_file_path with
        | Except.error e => Except.error e
        | Except.ok fs2 => FS.removeFile fs2 old_path)

/-- The per-job external outcomes `handle_track` consumes: the two
`yt-dlp` invocations, the `ffmpeg` invocation, the result of
`Tag::write_to_path`, and the filesystem the relocate step sees. -/
structure JobEnv where
  probe : Except String CmdOut
  dl : Except String CmdOut
  ffmpeg : Except String CmdOut
  tagWrite : Except String Unit
  fs : FS

/-- `download.rs` lines 103–134, `handle_track`: the strictly sequential
per-track state machine.  `none` models a panic (out-of-bounds
`track_data` index); the filesystem produced by the relocate step is
discarded as in the source (`Result<(), _>`). -/
def handle_track (state : StateModifyingData) (i _num_tracks : Nat)
    (id : String) (env : JobEnv) (envOverwrite : Option String)
    (img : Option (List Nat)) (content_type : Option String)
    (_tmp_dir out_dir : String) : Option (Except DownloadError Unit) :=
  match generate_path_name env.probe id with
  | Except.error e => some (Except.error e)
  | Except.ok path =>
    match dl_from_yt env.dl id with
    | Except.error e => some (Except.error e)
    | Except.ok _ =>
      match (convert_to_mp3 env.ffmpeg path id).1 with
      | Except.error e => some (Except.error e)
      | Except.ok tmp_file_path =>
        match generate_tags state i img content_type with
        | none => none
        | some _tag =>
          match env.tagWrite with
          | Except.error e => some (Except.error (DownloadError.Id3Error e))
          | Except.ok _ =>
            match move_to_out_dir envOverwrite env.fs i state tmp_file_path
                out_dir with
            | none => none
            | some r => some (r.map (fun _ => ()))

/-- `.err()` on a `Result`, as used by the job-collection `filter_map`. -/
def resultErr : Except DownloadError Unit → Option DownloadError
  | Except.error e => some e
  | Except.ok _ => none

/-- All-or-nothing sequencing of possibly-panicking results: a single
panicking job aborts the whole process. -/
def sequenceOptions {α : Type} : List (Option α) → Option (List α)
  | [] => some []
  | none :: _ => none
  | some a :: rest => (sequenceOptions rest).map (fun l => a :: l)

/-- `download.rs` lines 64–87: one `handle_track` per `(i, id)` of the
enumerated identifier list.  `rayon`'s indexed `filter_map`/`collect`
preserves the enumeration order, so the parallel fan-out/join is modelled
by the ordered list of job results. -/
def run_jobs (state : StateModifyingData) (ids : List String)
    (jobEnv : Nat → JobEnv) (envOverwrite : Option String)
    (img : Option (List Nat)) (content_type : Option String)
    (tmp_dir out_dir : String) : List (Option (Except DownloadError Unit)) :=
  (ids.enum).map (fun p =>
    handle_track state p.1 ids.length p.2 (jobEnv p.1) envOverwrite img
      content_type tmp_dir out_dir)

/-- `download.rs` lines 50–96, `download_album`.  `dirs` is the outcome of
`where_dirs` plus the tmp-path UTF-8 check (lines 53–55).  Per-job errors
are collected in job order; the run succeeds iff none exist, else they are
wrapped in a single `MultipleErrors`.  `none` models a panic in some
job. -/
def download_album (state : StateModifyingData)
    (dirs : Except DownloadError (String × String))
    (scrape_playlist : String → Except String Playlist)
    (ytdlp_dump : String → Except String CmdOut)
    (parseVideo : String → Except String YoutubeVideo)
    (imageResp : Except String HttpResponse)
    (jobEnv : Nat → JobEnv) (envOverwrite : Option String) :
    Option (Except DownloadError Unit) :=
  match dirs with
  | Except.error e => some (Except.error e)
  | Except.ok (tmp_dir, out_dir) =>
    match (get_ids state.youtube_url scrape_playlist ytdlp_dump parseVideo).1 with
    | Except.error e => some (Except.error e)
    | Except.ok ids =>
      let imgCt := get_image imageResp
      match sequenceOptions (run_jobs state ids jobEnv envOverwrite imgCt.1
          imgCt.2 tmp_dir out_dir) with
      | none => none
      | some results =>
        let errors := results.filterMap resultErr
        some (if errors.isEmpty then Except.ok ()
              else Except.error (DownloadError.MultipleErrors errors))

/-- The first `Except.error` payload in a list of results, if any. -/
def firstError {T E : Type} : List (Except E T) → Option E
  | [] => none
  | Except.ok _ :: rest => firstError rest
  | Except.error e :: _ => some e

/-! ## Helper lemmas -/

theorem filter_illegal_eq_self (l : List Char)
    (h : l.any (fun c => ILLEGAL_CHARS.contains c) = false) :
    l.filter (fun ch => !ILLEGAL_CHARS.contains ch) = l := by
  rw [List.filter_eq_self]
  intro a ha
  rw [List.any_eq_false] at h
  have hc := h a ha
  rw [Bool.not_eq_true] at hc
  show (!ILLEGAL_CHARS.contains a) = true
  rw [hc]
  rfl

/-- C6: `sanitize_file_name` returns the input with exactly the characters
of the illegal set `< > : " / \ | ? *` removed and nothing else changed,
added or reordered; an input free of illegal characters comes back as the
borrowed input string itself (no new buffer). -/
theorem C6_sanitize_file_name_removes_illegal (s : String) :
    (sanitize_file_name s).value.toList
        = s.toList.filter (fun ch => !ILLEGAL_CHARS.contains ch)
      ∧ (contains_illegal_chars s = false →
          sanitize_file_name s = Cow.borrowed s) := by
  constructor
  · unfold sanitize_file_name
    split
    · rfl
    · next hcond =>
      rw [Bool.not_eq_true] at hcond
      unfold contains_illegal_chars at hcond
      show s.toList = _
      exact (filter_illegal_eq_self s.toList hcond).symm
  · intro h
    unfold sanitize_file_name
    rw [h]
    rfl

/-- Witness for C6 at concrete inputs: `"a<b*c"` is cleaned to `"abc"`
and the clean `"abc"` is returned borrowed. -/
theorem C6_sanitize_file_name_removes_illegal_witness :
    ((sanitize_file_name "a<b*c").value.toList
        = "a<b*c".toList.filter (fun ch => !ILLEGAL_CHARS.contains ch)
      ∧ (contains_illegal_chars "a<b*c" = false →
          sanitize_file_name "a<b*c" = Cow.borrowed "a<b*c"))
    ∧ sanitize_file_name "abc" = Cow.borrowed "abc" := by
  refine ⟨C6_sanitize_file_name_removes_illegal "a<b*c", ?_⟩
  exact (C6_sanitize_file_name_removes_illegal "abc").2 (by decide)

theorem reduce_vec_of_results_ok {T E : Type} (vs : List T)
    (l : List (Except E T)) (h : l = vs.map Except.ok) :
    reduce_vec_of_results l = Except.ok vs := by
  subst h
  induction vs with
  | nil => rfl
  | cons v vs ih => simp [reduce_vec_of_results, ih, Except.map]

theorem reduce_vec_of_results_firstError {T E : Type}
    (l : List (Except E T)) (e : E) (h : firstError l = some e) :
    reduce_vec_of_results l = Except.error e := by
  induction l with
  | nil => simp [firstError] at h
  | cons r rest ih =>
    cases r with
    | ok v =>
      rw [show firstError (Except.ok v :: rest) = firstError rest from rfl] at h
      simp [reduce_vec_of_results, ih h, Except.map]
    | error e2 =>
      rw [show firstError (Except.error e2 :: rest) = some e2 from rfl] at h
      cases h
      rfl

/-- C8: the fallback tier `scrape_youtube` is all-or-nothing — when every
non-empty stdout line parses, it returns all records in the emitted
order; when some line fails to parse, it returns the first parse error
and no partial list. -/
theorem C8_scrape_youtube_all_or_nothing (out : CmdOut)
    (parseVideo : String → Except String YoutubeVideo) :
    (∀ vids : List YoutubeVideo,
        ((split_lines out.stdout).filter (fun s => s ≠ "")).map parseVideo
            = vids.map Except.ok →
        scrape_youtube (Except.ok out) parseVideo = Except.ok vids)
  ∧ (∀ e : String,
        firstError
            (((split_lines out.stdout).filter (fun s => s ≠ "")).map parseVideo)
            = some e →
        scrape_youtube (Except.ok out) parseVideo
            = Except.error (ScrapeYoutubeError.SerdeJsonError e)) := by
  constructor
  · intro vids h
    show (reduce_vec_of_results
        (((split_lines out.stdout).filter (fun s => s ≠ "")).map
          parseVideo)).mapError ScrapeYoutubeError.SerdeJsonError = _
    rw [reduce_vec_of_results_ok vids _ h]
    rfl
  · intro e h
    show (reduce_vec_of_results
        (((split_lines out.stdout).filter (fun s => s ≠ "")).map
          parseVideo)).mapError ScrapeYoutubeError.SerdeJsonError = _
    rw [reduce_vec_of_results_firstError _ e h]
    rfl

/-- Witness for C8: stdout `"x\n\nx"` where `"x"` parses yields both
records in order; stdout `"x\ny"` where `"y"` fails yields the error. -/
theorem C8_scrape_youtube_all_or_nothing_witness :
    scrape_youtube (Except.ok ⟨true, "x\n\nx", ""⟩)
        (fun s => if s = "x" then Except.ok ⟨"id1", "t1"⟩
                  else Except.error "bad")
      = Except.ok [⟨"id1", "t1"⟩, ⟨"id1", "t1"⟩]
    ∧ scrape_youtube (Except.ok ⟨true, "x\ny", ""⟩)
        (fun s => if s = "x" then Except.ok ⟨"id1", "t1"⟩
                  else Except.error "bad")
      = Except.error (ScrapeYoutubeError.SerdeJsonError "bad") := by
  constructor
  · exact (C8_scrape_youtube_all_or_nothing ⟨true, "x\n\nx", ""⟩ _).1
      [⟨"id1", "t1"⟩, ⟨"id1", "t1"⟩] rfl
  · exact (C8_scrape_youtube_all_or_nothing ⟨true, "x\ny", ""⟩ _).2
      "bad" rfl

theorem collect_ids_all (tracks : List PlaylistItem) (ids : List String)
    (h : tracks.map PlaylistItem.id = ids.map some) :
    collect_ids tracks = some ids := by
  induction tracks generalizing ids with
  | nil =>
    cases ids with
    | nil => rfl
    | cons i is => simp at h
  | cons t ts ih =>
    cases ids with
    | nil => simp at h
    | cons i is =>
      simp only [List.map_cons, List.cons.injEq] at h
      obtain ⟨h1, h2⟩ := h
      simp [collect_ids, h1, ih is h2]

theorem collect_ids_missing (tracks : List PlaylistItem)
    (h : ∃ t ∈ tracks, t.id = none) : collect_ids tracks = none := by
  induction tracks with
  | nil => simp at h
  | cons t ts ih =>
    obtain ⟨u, hu, hid⟩ := h
    cases List.mem_cons.mp hu with
    | inl heq =>
      subst heq
      simp [collect_ids, hid]
    | inr hmem =>
      cases ht : t.id with
      | none => simp [collect_ids, ht]
      | some v => simp [collect_ids, ht, ih ⟨u, hmem, hid⟩]

/-- C1: when the structured scrape succeeds and every item carries a
(non-empty) identifier, `get_ids` returns exactly those identifiers in
order and never invokes the fallback tool (flag `false`); when some item
lacks an identifier, the structured result is discarded and the result is
exactly the fallback tier's (flag `true`). -/
theorem C1_get_ids_structured_tier
    (url : String) (scrape : String → Except String Playlist)
    (dump : String → Except String CmdOut)
    (parseVideo : String → Except String YoutubeVideo)
    (p : Playlist) (ids : List String)
    (hscrape : scrape (music_to_www url).value = Except.ok p) :
    (p.tracks.map PlaylistItem.id = ids.map some → (∀ s ∈ ids, s ≠ "") →
        get_ids url scrape dump parseVideo = (Except.ok ids, false))
  ∧ ((∃ t ∈ p.tracks, t.id = none) →
        get_ids url scrape dump parseVideo =
          (((scrape_youtube (dump (music_to_www url).value) parseVideo).map
              (fun ts => ts.map YoutubeVideo.id)).mapError
            DownloadError.ScrapeYoutubeError, true)) := by
  constructor
  · intro hids _hne
    simp only [get_ids]
    rw [hscrape]
    simp [collect_ids_all p.tracks ids hids]
  · intro hmiss
    simp only [get_ids]
    rw [hscrape]
    simp [collect_ids_missing p.tracks hmiss]

/-- Witness for C1: a two-track structured scrape with both ids present
resolves without fallback; a one-track scrape with a missing id resolves
through the (empty-output) fallback tool. -/
theorem C1_get_ids_structured_tier_witness :
    get_ids "u"
        (fun _ => Except.ok
          ⟨"t", "a", "th", [⟨some "A", some "id1"⟩, ⟨some "B", some "id2"⟩]⟩)
        (fun _ => Except.ok ⟨true, "", ""⟩) (fun _ => Except.error "bad")
      = (Except.ok ["id1", "id2"], false)
    ∧ get_ids "u"
        (fun _ => Except.ok ⟨"t", "a", "th", [⟨some "A", none⟩]⟩)
        (fun _ => Except.ok ⟨true, "", ""⟩) (fun _ => Except.error "bad")
      = (Except.ok [], true) := by
  constructor
  · exact (C1_get_ids_structured_tier "u" _ _ _
      ⟨"t", "a", "th", [⟨some "A", some "id1"⟩, ⟨some "B", some "id2"⟩]⟩
      ["id1", "id2"] rfl).1 rfl (by decide)
  · exact ((C1_get_ids_structured_tier "u" _ _ _
      ⟨"t", "a", "th", [⟨some "A", none⟩]⟩ [] rfl).2
      ⟨⟨some "A", none⟩, by simp, rfl⟩).trans rfl

/-- C3: in `move_to_out_dir`, with the destination file already present,
overwrite is enabled iff `YTMDL_OVERWRITE` is unset or exactly `"true"`;
enabled ⇒ the existing file is deleted and the scratch file's contents are
copied over it (and the scratch file removed); disabled ⇒ the destination
is untouched, the scratch file is deleted, and the job reports success. -/
theorem C3_move_to_out_dir_overwrite_policy
    (envOverwrite : Option String) (fs : FS) (i : Nat)
    (state : StateModifyingData) (old_path out_dir dst : String)
    (td : TrackData)
    (hidx : state.track_data[i]? = some td)
    (hdst : dst = out_dir ++ "/" ++
        (sanitize_file_name (state.album_data.artist ++ " - " ++
          state.album_data.name ++ " - " ++ td.name ++ ".mp3")).value)
    (hex : FS.existsPath fs dst = true)
    (hold : FS.existsPath fs old_path = true)
    (hne : old_path ≠ dst) :
    (overwrite_enabled envOverwrite = true ↔
        envOverwrite = none ∨ envOverwrite = some "true")
  ∧ (overwrite_enabled envOverwrite = true →
      ∃ fs3 : FS, move_to_out_dir envOverwrite fs i state old_path out_dir
          = some (Except.ok fs3)
        ∧ FS.lookup fs3 dst = FS.lookup fs old_path
        ∧ FS.existsPath fs3 old_path = false)
  ∧ (overwrite_enabled envOverwrite = false →
      ∃ fs3 : FS, move_to_out_dir envOverwrite fs i state old_path out_dir
          = some (Except.ok fs3)
        ∧ FS.lookup fs3 dst = FS.lookup fs dst
        ∧ FS.existsPath fs3 old_path = false) := by
  have hold2 : (fs old_path).isSome = true := hold
  have hex2 : (fs dst).isSome = true := hex
  obtain ⟨c, hc⟩ := Option.isSome_iff_exists.mp hold2
  refine ⟨?_, ?_, ?_⟩
  · cases envOverwrite with
    | none => simp [overwrite_enabled]
    | some v => simp [overwrite_enabled]
  · intro hen
    have h1 : FS.removeFile fs dst
        = Except.ok (fun q => if q = dst then none else fs q) := by
      unfold FS.removeFile FS.existsPath FS.lookup
      rw [hex2]
      rfl
    have h2 : FS.copy (fun q => if q = dst then none else fs q) old_path dst
        = Except.ok (fun q => if q = dst then some c
            else if q = dst then none else fs q) := by
      simp only [FS.copy, FS.lookup]
      rw [if_neg hne, hc]
    have h3 : FS.removeFile (fun q => if q = dst then some c
          else if q = dst then none else fs q) old_path
        = Except.ok (fun q => if q = old_path then none
            else if q = dst then some c
            else if q = dst then none else fs q) := by
      simp only [FS.removeFile, FS.existsPath, FS.lookup]
      rw [if_neg hne, if_neg hne, hc]
      rfl
    refine ⟨fun q => if q = old_path then none
        else if q = dst then some c
        else if q = dst then none else fs q, ?_, ?_, ?_⟩
    · unfold move_to_out_dir
      rw [hidx]
      simp only [← hdst]
      rw [hex, hen]
      simp [h1, h2, h3]
    · show (if dst = old_path then none
        else if dst = dst then some c
        else if dst = dst then none else fs dst) = FS.lookup fs old_path
      rw [if_neg (Ne.symm hne), if_pos rfl]
      exact hc.symm
    · show (Option.isSome (if old_path = old_path then none
        else if old_path = dst then some c
        else if old_path = dst then none else fs old_path)) = false
      rw [if_pos rfl]
      rfl
  · intro hen
    have h1 : FS.removeFile fs old_path
        = Except.ok (fun q => if q = old_path then none else fs q) := by
      unfold FS.removeFile FS.existsPath FS.lookup
      rw [hold2]
      rfl
    refine ⟨fun q => if q = old_path then none else fs q, ?_, ?_, ?_⟩
    · unfold move_to_out_dir
      rw [hidx]
      simp only [← hdst]
      rw [hex, hen]
      simp [h1]
    · show (if dst = old_path then none else fs dst) = FS.lookup fs dst
      rw [if_neg (Ne.symm hne)]
      rfl
    · show (Option.isSome (if old_path = old_path then none
        else fs old_path)) = false
      rw [if_pos rfl]
      rfl

/-- Witness for C3 at a concrete state and filesystem, for both policy
values. -/
theorem C3_move_to_out_dir_overwrite_policy_witness :
    ((overwrite_enabled (some "true") = true ↔
        (some "true" : Option String) = none
          ∨ (some "true" : Option String) = some "true")
      ∧ (overwrite_enabled (some "true") = true →
          ∃ fs3 : FS, move_to_out_dir (some "true")
              (fun q => if q = "o/a - b - c.mp3" then some "old"
                        else if q = "t/0.mp3" then some "new" else none)
              0 ⟨"u", ⟨"b", "a", "g", 2023, "img", none⟩, [⟨"c"⟩]⟩
              "t/0.mp3" "o"
            = some (Except.ok fs3)
          ∧ FS.lookup fs3 "o/a - b - c.mp3"
              = FS.lookup
                  (fun q => if q = "o/a - b - c.mp3" then some "old"
                            else if q = "t/0.mp3" then some "new" else none)
                  "t/0.mp3"
          ∧ FS.existsPath fs3 "t/0.mp3" = false))
    ∧ (overwrite_enabled (some "x") = false →
        ∃ fs3 : FS, move_to_out_dir (some "x")
            (fun q => if q = "o/a - b - c.mp3" then some "old"
                      else if q = "t/0.mp3" then some "new" else none)
            0 ⟨"u", ⟨"b", "a", "g", 2023, "img", none⟩, [⟨"c"⟩]⟩
            "t/0.mp3" "o"
          = some (Except.ok fs3)
        ∧ FS.lookup fs3 "o/a - b - c.mp3"
            = FS.lookup
                (fun q => if q = "o/a - b - c.mp3" then some "old"
                          else if q = "t/0.mp3" then some "new" else none)
                "o/a - b - c.mp3"
        ∧ FS.existsPath fs3 "t/0.mp3" = false) := by
  constructor
  · have h := C3_move_to_out_dir_overwrite_policy (some "true")
      (fun q => if q = "o/a - b - c.mp3" then some "old"
                else if q = "t/0.mp3" then some "new" else none)
      0 ⟨"u", ⟨"b", "a", "g", 2023, "img", none⟩, [⟨"c"⟩]⟩
      "t/0.mp3" "o" "o/a - b - c.mp3" ⟨"c"⟩ rfl (by decide) (by decide)
      (by decide) (by decide)
    exact ⟨h.1, h.2.1⟩
  · exact (C3_move_to_out_dir_overwrite_policy (some "x")
      (fun q => if q = "o/a - b - c.mp3" then some "old"
                else if q = "t/0.mp3" then some "new" else none)
      0 ⟨"u", ⟨"b", "a", "g", 2023, "img", none⟩, [⟨"c"⟩]⟩
      "t/0.mp3" "o" "o/a - b - c.mp3" ⟨"c"⟩ rfl (by decide) (by decide)
      (by decide) (by decide)).2.2

/-- C7: `convert_to_mp3` skips the transcoder and returns the input path
unchanged when the file's extension already equals `mp3` case-insensitively;
otherwise the transcoder is invoked and a failing invocation yields
`FfmpegError` tagged with the track identifier. -/
theorem C7_convert_to_mp3_skip_or_invoke
    (ffmpeg : Except String CmdOut) (old_path id : String) :
    ((match path_extension old_path with
      | some ext => eq_ignore_ascii_case ext "mp3"
      | none => false) = true →
        convert_to_mp3 ffmpeg old_path id = (Except.ok old_path, false))
  ∧ ((match path_extension old_path with
      | some ext => eq_ignore_ascii_case ext "mp3"
      | none => false) = false →
        (convert_to_mp3 ffmpeg old_path id).2 = true
        ∧ ∀ out : CmdOut, ffmpeg = Except.ok out → out.success = false →
            (convert_to_mp3 ffmpeg old_path id).1
              = Except.error (DownloadError.FfmpegError id)) := by
  constructor
  · intro h
    unfold convert_to_mp3
    rw [if_pos h]
  · intro h
    have hn : ¬ ((match path_extension old_path with
        | some ext => eq_ignore_ascii_case ext "mp3"
        | none => false) = true) := by
      rw [h]
      exact Bool.false_ne_true
    constructor
    · unfold convert_to_mp3
      rw [if_neg hn]
      cases ffmpeg with
      | error e => rfl
      | ok out =>
        cases hs : out.success with
        | true => simp [hs]
        | false => simp [hs]
    · intro out hout hsucc
      subst hout
      unfold convert_to_mp3
      rw [if_neg hn]
      simp [hsucc]

/-- Witness for C7: `"t/0.MP3"` is skipped regardless of the transcoder
oracle; `"t/0.webm"` with a failing transcoder yields `FfmpegError`. -/
theorem C7_convert_to_mp3_skip_or_invoke_witness :
    convert_to_mp3 (Except.error "unused") "t/0.MP3" "vid"
        = (Except.ok "t/0.MP3", false)
    ∧ (convert_to_mp3 (Except.ok ⟨false, "", ""⟩) "t/0.webm" "vid").2 = true
    ∧ (convert_to_mp3 (Except.ok ⟨false, "", ""⟩) "t/0.webm" "vid").1
        = Except.error (DownloadError.FfmpegError "vid") := by
  refine ⟨?_, ?_, ?_⟩
  · exact (C7_convert_to_mp3_skip_or_invoke (Except.error "unused")
      "t/0.MP3" "vid").1 (by decide)
  · exact ((C7_convert_to_mp3_skip_or_invoke (Except.ok ⟨false, "", ""⟩)
      "t/0.webm" "vid").2 (by decide)).1
  · exact ((C7_convert_to_mp3_skip_or_invoke (Except.ok ⟨false, "", ""⟩)
      "t/0.webm" "vid").2 (by decide)).2 ⟨false, "", ""⟩ rfl rfl

theorem generate_tags_none_iff (state : StateModifyingData) (i : Nat)
    (img : Option (List Nat)) (ct : Option String) :
    generate_tags state i img ct = none ↔ state.track_data[i]? = none := by
  cases hg : state.track_data[i]? <;> simp [generate_tags, hg]

/-- `handle_track` produces the same result whatever cover art was
fetched: the image only flows into the (opaquely written) tag value. -/
theorem handle_track_art_independent (state : StateModifyingData)
    (i n : Nat) (id : String) (env : JobEnv) (eo : Option String)
    (img1 img2 : Option (List Nat)) (ct1 ct2 : Option String)
    (t o : String) :
    handle_track state i n id env eo img1 ct1 t o
      = handle_track state i n id env eo img2 ct2 t o := by
  cases hg : state.track_data[i]? with
  | none => simp [handle_track, generate_tags, hg]
  | some td => simp [handle_track, generate_tags, hg]

/-- C4 counterexample: `get_image` does not inspect the HTTP status — a
404 response with body bytes and a content type still yields art, contrary
to the claim that any non-success status yields no bytes and no content
type. -/
theorem C4_get_image_counterexample :
    get_image (Except.ok ⟨404, some "text/html", some [60]⟩)
      = (some [60], some "text/html")
    ∧ (get_image (Except.ok ⟨404, some "text/html", some [60]⟩)).1 ≠ none := by
  exact ⟨rfl, by decide⟩

/-- C4 (amended): a transport error yields no art; any received response
(whatever its status) yields its body bytes and declared content type; a
picture frame is embedded iff both bytes and content type are present; and
the album-art outcome never changes the run result. -/
theorem C4_cover_art_amended :
    (∀ e : String, get_image (Except.error e) = (none, none))
  ∧ (∀ r : HttpResponse, get_image (Except.ok r) = (r.bytes, r.contentType))
  ∧ (∀ (state : StateModifyingData) (i : Nat) (img : Option (List Nat))
        (ct : Option String) (t : Tag),
        generate_tags state i img ct = some t →
        (t.picture ≠ none ↔ img ≠ none ∧ ct ≠ none))
  ∧ (∀ (state : StateModifyingData)
        (dirs : Except DownloadError (String × String))
        (scrape : String → Except String Playlist)
        (dump : String → Except String CmdOut)
        (parseVideo : String → Except String YoutubeVideo)
        (r1 r2 : Except String HttpResponse)
        (jobEnv : Nat → JobEnv) (eo : Option String),
        download_album state dirs scrape dump parseVideo r1 jobEnv eo
          = download_album state dirs scrape dump parseVideo r2 jobEnv eo) := by
  refine ⟨fun e => rfl, fun r => rfl, ?_, ?_⟩
  · intro state i img ct t h
    cases hg : state.track_data[i]? with
    | none =>
      rw [← generate_tags_none_iff state i img ct] at hg
      rw [hg] at h
      cases h
    | some td =>
      simp only [generate_tags, hg] at h
      cases h
      cases img <;> cases ct <;> simp
  · intro state dirs scrape dump parseVideo r1 r2 jobEnv eo
    unfold download_album
    cases dirs with
    | error e => rfl
    | ok tu =>
      obtain ⟨tmp_dir, out_dir⟩ := tu
      cases (get_ids state.youtube_url scrape dump parseVideo).1 with
      | error e => rfl
      | ok ids =>
        have hjobs : run_jobs state ids jobEnv eo (get_image r1).1
            (get_image r1).2 tmp_dir out_dir
          = run_jobs state ids jobEnv eo (get_image r2).1
            (get_image r2).2 tmp_dir out_dir := by
          unfold run_jobs
          exact List.map_congr_left (fun p _ =>
            handle_track_art_independent state p.1 ids.length p.2
              (jobEnv p.1) eo _ _ _ _ tmp_dir out_dir)
        simp only [hjobs]

/-- Witness for C4 (amended) at concrete inputs. -/
theorem C4_cover_art_amended_witness :
    get_image (Except.error "net down") = (none, none)
    ∧ get_image (Except.ok ⟨200, some "image/png", some [1, 2]⟩)
        = (some [1, 2], some "image/png")
    ∧ (∃ t : Tag,
        generate_tags ⟨"u", ⟨"n", "a", "g", 2020, "i", none⟩, [⟨"T"⟩]⟩ 0
            (some [1]) (some "image/png") = some t
        ∧ (t.picture ≠ none ↔
            (some [1] : Option (List Nat)) ≠ none
              ∧ (some "image/png" : Option String) ≠ none))
    ∧ download_album ⟨"u", ⟨"n", "a", "g", 2020, "i", none⟩, [⟨"T"⟩]⟩
        (Except.error DownloadError.TmpDirError) (fun _ => Except.error "x")
        (fun _ => Except.error "x") (fun _ => Except.error "x")
        (Except.error "net down")
        (fun _ => ⟨Except.error "x", Except.error "x", Except.error "x",
          Except.error "x", fun _ => none⟩) none
      = download_album ⟨"u", ⟨"n", "a", "g", 2020, "i", none⟩, [⟨"T"⟩]⟩
        (Except.error DownloadError.TmpDirError) (fun _ => Except.error "x")
        (fun _ => Except.error "x") (fun _ => Except.error "x")
        (Except.ok ⟨200, some "image/png", some [1, 2]⟩)
        (fun _ => ⟨Except.error "x", Except.error "x", Except.error "x",
          Except.error "x", fun _ => none⟩) none := by
  refine ⟨C4_cover_art_amended.1 "net down",
    C4_cover_art_amended.2.1 ⟨200, some "image/png", some [1, 2]⟩,
    ⟨_, rfl, by simp⟩,
    C4_cover_art_amended.2.2.2 _ _ _ _ _ _ _ _ _⟩

/-- C5 counterexample: a track job whose 0-based index is at least the
length of the track-metadata list does not always panic — when an earlier
step fails (here the download), the job returns the typed `YtdlpError`
without ever reaching the out-of-bounds indexing. -/
theorem C5_out_of_range_counterexample :
    (0 : Nat) ≥ ([] : List TrackData).length
    ∧ handle_track ⟨"u", ⟨"n", "a", "g", 2020, "i", none⟩, []⟩ 0 1 "abc"
        ⟨Except.ok ⟨true, "t/0.webm", ""⟩, Except.ok ⟨false, "", ""⟩,
          Except.error "x", Except.error "x", fun _ => none⟩
        none none none "t" "o"
      = some (Except.error (DownloadError.YtdlpError "abc")) := by
  exact ⟨Nat.le_refl 0, rfl⟩

/-- C5 (amended): a track job whose 0-based index is at least the length
of the track-metadata list and whose downloader and transcode steps all
succeed panics at the out-of-bounds `track_data` indexing (in
`generate_tags`, and `move_to_out_dir` panics likewise) rather than
returning a typed per-job error. -/
theorem C5_out_of_range_panics (state : StateModifyingData)
    (i n : Nat) (id : String) (env : JobEnv) (eo : Option String)
    (img : Option (List Nat)) (ct : Option String) (t o p q : String)
    (hlen : state.track_data.length ≤ i)
    (hp : generate_path_name env.probe id = Except.ok p)
    (hd : dl_from_yt env.dl id = Except.ok ())
    (hc : (convert_to_mp3 env.ffmpeg p id).1 = Except.ok q) :
    handle_track state i n id env eo img ct t o = none
    ∧ generate_tags state i img ct = none
    ∧ move_to_out_dir eo env.fs i state q o = none := by
  have hg : state.track_data[i]? = none := List.getElem?_eq_none hlen
  refine ⟨?_, (generate_tags_none_iff state i img ct).mpr hg, ?_⟩
  · simp [handle_track, hp, hd, hc, generate_tags, hg]
  · simp [move_to_out_dir, hg]

/-- Witness for C5 (amended) at a concrete run with zero track-metadata
entries and all external steps succeeding. -/
theorem C5_out_of_range_panics_witness :
    handle_track ⟨"u", ⟨"n", "a", "g", 2020, "i", none⟩, []⟩ 0 1 "abc"
        ⟨Except.ok ⟨true, "t/0.mp3", ""⟩, Except.ok ⟨true, "", ""⟩,
          Except.error "x", Except.ok (), fun _ => none⟩
        none none none "t" "o"
      = none
    ∧ generate_tags ⟨"u", ⟨"n", "a", "g", 2020, "i", none⟩, []⟩ 0 none none
      = none
    ∧ move_to_out_dir none (fun _ => none) 0
        ⟨"u", ⟨"n", "a", "g", 2020, "i", none⟩, []⟩ "t/0.mp3" "o"
      = none := by
  exact C5_out_of_range_panics ⟨"u", ⟨"n", "a", "g", 2020, "i", none⟩, []⟩
    0 1 "abc"
    ⟨Except.ok ⟨true, "t/0.mp3", ""⟩, Except.ok ⟨true, "", ""⟩,
      Except.error "x", Except.ok (), fun _ => none⟩
    none none none "t" "o" "t/0.mp3" "t/0.mp3"
    (Nat.le_refl 0) rfl rfl rfl

theorem generate_path_name_error (cmd : Except String CmdOut) (id : String)
    (e : DownloadError) (h : generate_path_name cmd id = Except.error e) :
    (∃ m, e = DownloadError.IoError m) ∨ e = DownloadError.YtdlpError id := by
  unfold generate_path_name at h
  split at h
  · next m => cases h; exact Or.inl ⟨m, rfl⟩
  · next out =>
    split at h
    · cases h; exact Or.inr rfl
    · cases h

theorem dl_from_yt_error (cmd : Except String CmdOut) (id : String)
    (e : DownloadError) (h : dl_from_yt cmd id = Except.error e) :
    (∃ m, e = DownloadError.IoError m) ∨ e = DownloadError.YtdlpError id := by
  unfold dl_from_yt at h
  split at h
  · next m => cases h; exact Or.inl ⟨m, rfl⟩
  · next out =>
    split at h
    · cases h; exact Or.inr rfl
    · cases h

theorem convert_to_mp3_error (ffmpeg : Except String CmdOut)
    (p id : String) (e : DownloadError)
    (h : (convert_to_mp3 ffmpeg p id).1 = Except.error e) :
    (∃ m, e = DownloadError.IoError m) ∨ e = DownloadError.FfmpegError id := by
  unfold convert_to_mp3 at h
  split at h
  · cases h
  · split at h
    · next m => cases h; exact Or.inl ⟨m, rfl⟩
    · next out =>
      split at h
      · cases h
      · cases h; exact Or.inr rfl

theorem FS.removeFile_error (fs : FS) (p : String) (e : DownloadError)
    (h : FS.removeFile fs p = Except.error e) :
    ∃ m, e = DownloadError.IoError m := by
  unfold FS.removeFile at h
  split at h
  · cases h
  · cases h; exact ⟨"No such file or directory", rfl⟩

theorem FS.copy_error (fs : FS) (src dst : String) (e : DownloadError)
    (h : FS.copy fs src dst = Except.error e) :
    ∃ m, e = DownloadError.IoError m := by
  unfold FS.copy at h
  split at h
  · cases h; exact ⟨"No such file or directory", rfl⟩
  · cases h

theorem move_to_out_dir_error (eo : Option String) (fs : FS) (i : Nat)
    (state : StateModifyingData) (q o : String) (e : DownloadError)
    (h : move_to_out_dir eo fs i state q o = some (Except.error e)) :
    ∃ m, e = DownloadError.IoError m := by
  unfold move_to_out_dir at h
  split at h
  · cases h
  · next td heq =>
    have h2 := Option.some.inj h
    split at h2
    · split at h2
      · split at h2
        · next e1 hrm => cases h2; exact FS.removeFile_error _ _ _ hrm
        · next fs1 hrm =>
          split at h2
          · next e1 hcp => cases h2; exact FS.copy_error _ _ _ _ hcp
          · next fs2 hcp => exact FS.removeFile_error _ _ _ h2
      · exact FS.removeFile_error _ _ _ h2
    · split at h2
      · next e1 hcp => cases h2; exact FS.copy_error _ _ _ _ hcp
      · next fs2 hcp => exact FS.removeFile_error _ _ _ h2

/-- Every per-job error either carries the job's track identifier
(`YtdlpError`/`FfmpegError` from the downloader and transcoder steps) or
is an untagged tag-write (`Id3Error`) or filesystem (`IoError`) error. -/
theorem handle_track_error_classified (state : StateModifyingData)
    (i n : Nat) (id : String) (env : JobEnv) (eo : Option String)
    (img : Option (List Nat)) (ct : Option String) (t o : String)
    (e : DownloadError)
    (h : handle_track state i n id env eo img ct t o
        = some (Except.error e)) :
    DownloadError.trackId e = some id
      ∨ (∃ m, e = DownloadError.Id3Error m)
      ∨ (∃ m, e = DownloadError.IoError m) := by
  unfold handle_track at h
  split at h
  · next e1 hpr =>
    have he : e1 = e := Except.error.inj (Option.some.inj h)
    rw [← he]
    rcases generate_path_name_error env.probe id e1 hpr with ⟨m, hm⟩ | hm
    · exact Or.inr (Or.inr ⟨m, hm⟩)
    · rw [hm]; exact Or.inl rfl
  · next path hpr =>
    split at h
    · next e1 hdl =>
      have he : e1 = e := Except.error.inj (Option.some.inj h)
      rw [← he]
      rcases dl_from_yt_error env.dl id e1 hdl with ⟨m, hm⟩ | hm
      · exact Or.inr (Or.inr ⟨m, hm⟩)
      · rw [hm]; exact Or.inl rfl
    · next u hdl =>
      split at h
      · next e1 hcv =>
        have he : e1 = e := Except.error.inj (Option.some.inj h)
        rw [← he]
        rcases convert_to_mp3_error env.ffmpeg path id e1 hcv with ⟨m, hm⟩ | hm
        · exact Or.inr (Or.inr ⟨m, hm⟩)
        · rw [hm]; exact Or.inl rfl
      · next tmp hcv =>
        split at h
        · cases h
        · next tag htag =>
          split at h
          · next m hw =>
            have he : DownloadError.Id3Error m = e :=
              Except.error.inj (Option.some.inj h)
            rw [← he]
            exact Or.inr (Or.inl ⟨m, rfl⟩)
          · next u2 hw =>
            split at h
            · cases h
            · next r hmv =>
              have h2 := Option.some.inj h
              cases r with
              | ok v => cases h2
              | error e1 =>
                have he : e1 = e := Except.error.inj h2
                rw [← he]
                exact Or.inr (Or.inr
                  (move_to_out_dir_error eo env.fs i state tmp o e1 hmv))

theorem length_filterMap_resultErr (l : List (Except DownloadError Unit)) :
    (l.filterMap resultErr).length
      = (l.filter (fun r => (resultErr r).isSome)).length := by
  induction l with
  | nil => rfl
  | cons r rest ih =>
    cases r with
    | ok u => simp [resultErr, List.filterMap_cons, ih]
    | error e => simp [resultErr, List.filterMap_cons, ih]

theorem sequenceOptions_getElem {α : Type} (l : List (Option α))
    (res : List α) (h : sequenceOptions l = some res) (j : Nat) (x : α)
    (hx : res[j]? = some x) : l[j]? = some (some x) := by
  induction l generalizing res j with
  | nil =>
    have hres : res = [] := (Option.some.inj h).symm
    subst hres
    simp at hx
  | cons o rest ih =>
    cases o with
    | none => cases h
    | some a =>
      cases hrest : sequenceOptions rest with
      | none =>
        unfold sequenceOptions at h
        rw [hrest] at h
        cases h
      | some res2 =>
        unfold sequenceOptions at h
        rw [hrest] at h
        have hres : res = a :: res2 := (Option.some.inj h).symm
        subst hres
        cases j with
        | zero =>
          rw [List.getElem?_cons_zero] at hx
          have hxa : a = x := Option.some.inj hx
          subst hxa
          rw [List.getElem?_cons_zero]
        | succ jj =>
          rw [List.getElem?_cons_succ] at hx
          rw [List.getElem?_cons_succ]
          exact ih res2 hrest jj hx

theorem run_jobs_getElem (state : StateModifyingData) (ids : List String)
    (jobEnv : Nat → JobEnv) (eo : Option String)
    (img : Option (List Nat)) (ct : Option String) (t o : String)
    (j : Nat) (r : Option (Except DownloadError Unit))
    (h : (run_jobs state ids jobEnv eo img ct t o)[j]? = some r) :
    ∃ idj, ids[j]? = some idj
      ∧ r = handle_track state j ids.length idj (jobEnv j) eo img ct t o := by
  unfold run_jobs at h
  rw [List.getElem?_map, List.getElem?_enum] at h
  cases hi : ids[j]? with
  | none => rw [hi] at h; cases h
  | some idj =>
    rw [hi] at h
    exact ⟨idj, rfl, (Option.some.inj h).symm⟩

/-- C2 (amended): `download_album` succeeds iff every dispatched job
succeeded; otherwise it returns a single `MultipleErrors` holding exactly
one error per failed job (in job order); every such error either carries
that job's track identifier (`YtdlpError`/`FfmpegError`) or is an
untagged tag-write (`Id3Error`) or filesystem (`IoError`) error; and a
run with zero identifiers succeeds with zero jobs. -/
theorem C2_download_album_aggregation (state : StateModifyingData)
    (dirs : Except DownloadError (String × String))
    (scrape : String → Except String Playlist)
    (dump : String → Except String CmdOut)
    (parseVideo : String → Except String YoutubeVideo)
    (imageResp : Except String HttpResponse)
    (jobEnv : Nat → JobEnv) (eo : Option String)
    (tmp out : String) (ids : List String)
    (results : List (Except DownloadError Unit))
    (hdirs : dirs = Except.ok (tmp, out))
    (hids : (get_ids state.youtube_url scrape dump parseVideo).1
        = Except.ok ids)
    (hjobs : sequenceOptions (run_jobs state ids jobEnv eo
        (get_image imageResp).1 (get_image imageResp).2 tmp out)
        = some results) :
    (download_album state dirs scrape dump parseVideo imageResp jobEnv eo
        = some (Except.ok ()) ↔ ∀ r ∈ results, r = Except.ok ())
  ∧ (results.filterMap resultErr ≠ [] →
      download_album state dirs scrape dump parseVideo imageResp jobEnv eo
        = some (Except.error
            (DownloadError.MultipleErrors (results.filterMap resultErr))))
  ∧ (results.filterMap resultErr).length
      = (results.filter (fun r => (resultErr r).isSome)).length
  ∧ (ids = [] →
      download_album state dirs scrape dump parseVideo imageResp jobEnv eo
        = some (Except.ok ()) ∧ results = [])
  ∧ (∀ (j : Nat) (e : DownloadError),
      results[j]? = some (Except.error e) →
      (∃ idj, ids[j]? = some idj ∧ DownloadError.trackId e = some idj)
        ∨ (∃ m, e = DownloadError.Id3Error m)
        ∨ (∃ m, e = DownloadError.IoError m)) := by
  subst hdirs
  have key : download_album state (Except.ok (tmp, out)) scrape dump
      parseVideo imageResp jobEnv eo
      = some (if (results.filterMap resultErr).isEmpty then Except.ok ()
          else Except.error
            (DownloadError.MultipleErrors (results.filterMap resultErr))) := by
    unfold download_album
    simp only [hids, hjobs]
  refine ⟨?_, ?_, length_filterMap_resultErr results, ?_, ?_⟩
  · rw [key]
    by_cases hcase : (results.filterMap resultErr).isEmpty = true
    · rw [if_pos hcase]
      rw [List.isEmpty_iff, List.filterMap_eq_nil_iff] at hcase
      constructor
      · intro _ r hr
        have hnone := hcase r hr
        cases r with
        | ok u => rfl
        | error e => cases hnone
      · intro _
        rfl
    · rw [if_neg hcase]
      constructor
      · intro habs
        cases Option.some.inj habs
      · intro hall
        exfalso
        apply hcase
        rw [List.isEmpty_iff, List.filterMap_eq_nil_iff]
        intro r hr
        rw [hall r hr]
        rfl
  · intro hne
    rw [key, if_neg (by rw [List.isEmpty_iff]; exact hne)]
  · intro hids0
    subst hids0
    have hres : results = [] := (Option.some.inj hjobs).symm
    subst hres
    rw [key]
    exact ⟨rfl, rfl⟩
  · intro j e hj
    have hrun := sequenceOptions_getElem _ results hjobs j (Except.error e) hj
    obtain ⟨idj, hid, hr⟩ := run_jobs_getElem state ids jobEnv eo
      (get_image imageResp).1 (get_image imageResp).2 tmp out j _ hrun
    rcases handle_track_error_classified state j ids.length idj (jobEnv j)
      eo (get_image imageResp).1 (get_image imageResp).2 tmp out e hr.symm
      with h1 | h2 | h3
    · exact Or.inl ⟨idj, hid, h1⟩
    · exact Or.inr (Or.inl h2)
    · exact Or.inr (Or.inr h3)

/-- C2 counterexample: a run whose only job fails at the tag-write step
aggregates exactly one error, but that error (`Id3Error`) carries no
track identifier — refuting "each tagged with that track's identifier". -/
theorem C2_untagged_error_counterexample :
    download_album ⟨"u", ⟨"n", "a", "g", 2020, "i", none⟩, [⟨"T"⟩]⟩
        (Except.ok ("t", "o"))
        (fun _ => Except.ok ⟨"t", "a", "th", [⟨some "T", some "vid"⟩]⟩)
        (fun _ => Except.error "unused") (fun _ => Except.error "unused")
        (Except.error "net")
        (fun _ => ⟨Except.ok ⟨true, "t/0.mp3", ""⟩, Except.ok ⟨true, "", ""⟩,
          Except.error "unused", Except.error "boom", fun _ => none⟩) none
      = some (Except.error (DownloadError.MultipleErrors
          [DownloadError.Id3Error "boom"]))
    ∧ DownloadError.trackId (DownloadError.Id3Error "boom") = none := by
  exact ⟨rfl, rfl⟩

/-- Witness for C2 (amended): a one-job run failing at the tag-write step
aggregates exactly that error; the same run with a succeeding tag write
and filesystem succeeds. -/
theorem C2_download_album_aggregation_witness :
    download_album ⟨"u", ⟨"n", "a", "g", 2020, "i", none⟩, [⟨"T"⟩]⟩
        (Except.ok ("t", "o"))
        (fun _ => Except.ok ⟨"t", "a", "th", [⟨some "T", some "vid"⟩]⟩)
        (fun _ => Except.error "unused") (fun _ => Except.error "unused")
        (Except.error "net")
        (fun _ => ⟨Except.ok ⟨true, "t/0.mp3", ""⟩, Except.ok ⟨true, "", ""⟩,
          Except.error "unused", Except.error "boom", fun _ => none⟩) none
      = some (Except.error (DownloadError.MultipleErrors
          ([Except.error (DownloadError.Id3Error "boom")].filterMap resultErr)))
    ∧ download_album ⟨"u", ⟨"n", "a", "g", 2020, "i", none⟩, [⟨"T"⟩]⟩
        (Except.ok ("t", "o"))
        (fun _ => Except.ok ⟨"t", "a", "th", [⟨some "T", some "vid"⟩]⟩)
        (fun _ => Except.error "unused") (fun _ => Except.error "unused")
        (Except.error "net")
        (fun _ => ⟨Except.ok ⟨true, "t/0.mp3", ""⟩, Except.ok ⟨true, "", ""⟩,
          Except.error "unused", Except.ok (),
          fun q => if q = "t/0.mp3" then some "data" else none⟩) none
      = some (Except.ok ()) := by
  constructor
  · exact (C2_download_album_aggregation
      ⟨"u", ⟨"n", "a", "g", 2020, "i", none⟩, [⟨"T"⟩]⟩
      (Except.ok ("t", "o"))
      (fun _ => Except.ok ⟨"t", "a", "th", [⟨some "T", some "vid"⟩]⟩)
      (fun _ => Except.error "unused") (fun _ => Except.error "unused")
      (Except.error "net")
      (fun _ => ⟨Except.ok ⟨true, "t/0.mp3", ""⟩, Except.ok ⟨true, "", ""⟩,
        Except.error "unused", Except.error "boom", fun _ => none⟩) none
      "t" "o" ["vid"] [Except.error (DownloadError.Id3Error "boom")]
      rfl rfl rfl).2.1 (List.cons_ne_nil _ _)
  · exact ((C2_download_album_aggregation
      ⟨"u", ⟨"n", "a", "g", 2020, "i", none⟩, [⟨"T"⟩]⟩
      (Except.ok ("t", "o"))
      (fun _ => Except.ok ⟨"t", "a", "th", [⟨some "T", some "vid"⟩]⟩)
      (fun _ => Except.error "unused") (fun _ => Except.error "unused")
      (Except.error "net")
      (fun _ => ⟨Except.ok ⟨true, "t/0.mp3", ""⟩, Except.ok ⟨true, "", ""⟩,
        Except.error "unused", Except.ok (),
        fun q => if q = "t/0.mp3" then some "data" else none⟩) none
      "t" "o" ["vid"] [Except.ok ()]
      rfl rfl rfl).1).mpr (by
        intro r hr
        rw [List.mem_singleton] at hr
        exact hr)

theorem toList_append (a b : String) : (a ++ b).toList = a.toList ++ b.toList :=
  String.data_append a b

theorem string_data_ext (a b : String) (h : a.data = b.data) : a = b := by
  cases a
  cases b
  cases h
  rfl

theorem stripPrefix_append (p s : List Char) :
    stripPrefixList p (p ++ s) = some s := by
  induction p with
  | nil => rfl
  | cons c cs ih => simp [stripPrefixList, ih]

theorem stripPrefix_https_of_http (s : List Char) :
    stripPrefixList "https://".toList ("http://".toList ++ s) = none := by
  show stripPrefixList ['h', 't', 't', 'p', 's', ':', '/', '/']
      (['h', 't', 't', 'p', ':', '/', '/'] ++ s) = none
  simp [stripPrefixList]

theorem splitHost_append (h r : List Char)
    (hh : ∀ c ∈ h, isHostChar c = true)
    (hr : r.head? = some '/') :
    splitHost (h ++ r) = (h, r) := by
  induction h with
  | nil =>
    cases r with
    | nil => cases hr
    | cons c cs =>
      have hc : c = '/' := by
        have := Option.some.inj hr
        exact this
      subst hc
      simp [splitHost]
  | cons c cs ih =>
    have hc := hh c (List.mem_cons_self c cs)
    have hnot : ¬(c = '/' ∨ c = '?' ∨ c = '#') := by
      intro hor
      rcases hor with h1 | h1 | h1 <;> (subst h1; exact absurd hc (by decide))
    simp [splitHost, hnot,
      ih (fun x hx => hh x (List.mem_cons_of_mem c hx))]

theorem mkUrl_append (scheme : String) (hl rl : List Char)
    (hne : hl ≠ [])
    (hh : ∀ c ∈ hl, isHostChar c = true)
    (hr : rl.head? = some '/') :
    mkUrl scheme (hl ++ rl) = some ⟨scheme, ⟨hl.map lowerAscii⟩, ⟨rl⟩⟩ := by
  have hsp := splitHost_append hl rl hh hr
  have h1 : hl.isEmpty = false := by
    cases hl with
    | nil => exact absurd rfl hne
    | cons c cs => rfl
  have h2 : hl.all isHostChar = true := List.all_eq_true.mpr hh
  simp only [mkUrl, hsp]
  rw [if_neg]
  intro hor
  rcases hor with hx | hx
  · rw [h1] at hx; cases hx
  · rw [h2] at hx; cases hx

theorem urlParse_https_append (host rest : String)
    (hne : host.toList ≠ [])
    (hh : ∀ c ∈ host.toList, isHostChar c = true)
    (hr : rest.toList.head? = some '/') :
    urlParse ("https://" ++ host ++ rest)
      = some ⟨"https", ⟨host.toList.map lowerAscii⟩, rest⟩ := by
  unfold urlParse
  have hsplit : ("https://" ++ host ++ rest).toList
      = "https://".toList ++ (host.toList ++ rest.toList) := by
    rw [toList_append, toList_append, List.append_assoc]
  rw [hsplit, stripPrefix_append]
  exact mkUrl_append "https" host.toList rest.toList hne hh hr

theorem urlParse_http_append (host rest : String)
    (hne : host.toList ≠ [])
    (hh : ∀ c ∈ host.toList, isHostChar c = true)
    (hr : rest.toList.head? = some '/') :
    urlParse ("http://" ++ host ++ rest)
      = some ⟨"http", ⟨host.toList.map lowerAscii⟩, rest⟩ := by
  unfold urlParse
  have hsplit : ("http://" ++ host ++ rest).toList
      = "http://".toList ++ (host.toList ++ rest.toList) := by
    rw [toList_append, toList_append, List.append_assoc]
  rw [hsplit, stripPrefix_https_of_http, stripPrefix_append]
  exact mkUrl_append "http" host.toList rest.toList hne hh hr

theorem mapLower_id (l : List Char) (h : ∀ c ∈ l, lowerAscii c = c) :
    l.map lowerAscii = l := by
  rw [List.map_congr_left h]
  exact List.map_id l

theorem serialize_slash (u : Url) (hr : u.rest.toList.head? = some '/') :
    Url.serialize u = u.scheme ++ "://" ++ u.host ++ u.rest := by
  unfold Url.serialize
  have hne : u.rest ≠ "" := by
    intro h0
    rw [h0] at hr
    cases hr
  rw [if_neg hne, if_pos hr]

theorem music_host_ne (d : String) :
    ("music." ++ d : String) ≠ "www.youtube.com" := by
  intro h
  have h2 : ("music." ++ d).data.head? = ("www.youtube.com" : String).data.head? :=
    congrArg (fun s : String => s.data.head?) h
  have h3 : ("music." ++ d).data.head? = some 'm' := rfl
  rw [h3] at h2
  exact absurd (Option.some.inj h2) (by decide)

theorem music_to_www_of_parse (s : String) (u : Url)
    (hp : urlParse s = some u) (hr : u.rest.toList.head? = some '/') :
    (music_to_www s).value
      = if u.host = "www.youtube.com" then s
        else u.scheme ++ "://" ++ "www.youtube.com" ++ u.rest := by
  unfold music_to_www
  rw [hp]
  show (if u.host ≠ "www.youtube.com" then
      Cow.owned (Url.serialize { u with host := "www.youtube.com" })
    else Cow.borrowed s).value = _
  by_cases hh : u.host = "www.youtube.com"
  · rw [if_neg (not_not_intro hh), if_pos hh]
    rfl
  · rw [if_pos hh, if_neg hh]
    show Url.serialize { u with host := "www.youtube.com" } = _
    exact serialize_slash { u with host := "www.youtube.com" } hr

/-- C9: for a playlist URL (http(s), a registered-name lowercase domain, a
`/`-led path), the `music.<domain>` spelling and the `www.<domain>`
spelling are mapped by `music_to_www` to the same canonical-host URL
string, and `get_ids` — which normalizes the URL before any scraping tier
runs — behaves identically on both. -/
theorem C9_music_host_equiv_www_host (scheme d rest : String)
    (hs : scheme = "http" ∨ scheme = "https")
    (_hd : d ≠ "")
    (hdc : ∀ c ∈ d.toList, isHostChar c = true ∧ lowerAscii c = c)
    (hr : rest.toList.head? = some '/') :
    (music_to_www (scheme ++ "://" ++ ("music." ++ d) ++ rest)).value
      = (music_to_www (scheme ++ "://" ++ ("www." ++ d) ++ rest)).value
    ∧ ∀ (scrape : String → Except String Playlist)
        (dump : String → Except String CmdOut)
        (parseVideo : String → Except String YoutubeVideo),
        get_ids (scheme ++ "://" ++ ("music." ++ d) ++ rest)
            scrape dump parseVideo
          = get_ids (scheme ++ "://" ++ ("www." ++ d) ++ rest)
            scrape dump parseVideo := by
  have hmne : ("music." ++ d).toList ≠ [] := by
    intro h0
    have h1 : ("music." ++ d).toList.head? = some 'm' := rfl
    rw [h0] at h1
    cases h1
  have hwne : ("www." ++ d).toList ≠ [] := by
    intro h0
    have h1 : ("www." ++ d).toList.head? = some 'w' := rfl
    rw [h0] at h1
    cases h1
  have hmh : ∀ c ∈ ("music." ++ d).toList, isHostChar c = true := by
    intro c hc
    rw [toList_append] at hc
    rcases List.mem_append.mp hc with h1 | h1
    · exact (show ∀ c ∈ "music.".toList, isHostChar c = true by decide) c h1
    · exact (hdc c h1).1
  have hwh : ∀ c ∈ ("www." ++ d).toList, isHostChar c = true := by
    intro c hc
    rw [toList_append] at hc
    rcases List.mem_append.mp hc with h1 | h1
    · exact (show ∀ c ∈ "www.".toList, isHostChar c = true by decide) c h1
    · exact (hdc c h1).1
  have hmmap : ("music." ++ d).toList.map lowerAscii = ("music." ++ d).toList := by
    apply mapLower_id
    intro c hc
    rw [toList_append] at hc
    rcases List.mem_append.mp hc with h1 | h1
    · exact (show ∀ c ∈ "music.".toList, lowerAscii c = c by decide) c h1
    · exact (hdc c h1).2
  have hwmap : ("www." ++ d).toList.map lowerAscii = ("www." ++ d).toList := by
    apply mapLower_id
    intro c hc
    rw [toList_append] at hc
    rcases List.mem_append.mp hc with h1 | h1
    · exact (show ∀ c ∈ "www.".toList, lowerAscii c = c by decide) c h1
    · exact (hdc c h1).2
  have hp1 : urlParse (scheme ++ "://" ++ ("music." ++ d) ++ rest)
      = some ⟨scheme, "music." ++ d, rest⟩ := by
    rcases hs with h | h <;> subst h
    · have h2 := urlParse_http_append ("music." ++ d) rest hmne hmh hr
      rw [hmmap] at h2
      exact h2
    · have h2 := urlParse_https_append ("music." ++ d) rest hmne hmh hr
      rw [hmmap] at h2
      exact h2
  have hp2 : urlParse (scheme ++ "://" ++ ("www." ++ d) ++ rest)
      = some ⟨scheme, "www." ++ d, rest⟩ := by
    rcases hs with h | h <;> subst h
    · have h2 := urlParse_http_append ("www." ++ d) rest hwne hwh hr
      rw [hwmap] at h2
      exact h2
    · have h2 := urlParse_https_append ("www." ++ d) rest hwne hwh hr
      rw [hwmap] at h2
      exact h2
  have hval1 : (music_to_www (scheme ++ "://" ++ ("music." ++ d) ++ rest)).value
      = scheme ++ "://" ++ "www.youtube.com" ++ rest := by
    rw [music_to_www_of_parse _ _ hp1 hr, if_neg (music_host_ne d)]
  have hval : (music_to_www (scheme ++ "://" ++ ("music." ++ d) ++ rest)).value
      = (music_to_www (scheme ++ "://" ++ ("www." ++ d) ++ rest)).value := by
    rw [hval1, music_to_www_of_parse _ _ hp2 hr]
    by_cases hww : ("www." ++ d : String) = "www.youtube.com"
    · rw [if_pos hww, hww]
    · rw [if_neg hww]
  refine ⟨hval, ?_⟩
  intro scrape dump parseVideo
  simp only [get_ids, hval]

/-- Witness for C9 at the canonical concrete playlist URL pair. -/
theorem C9_music_host_equiv_www_host_witness :
    (music_to_www
        ("https" ++ "://" ++ ("music." ++ "youtube.com") ++ "/playlist?list=abc")).value
      = (music_to_www
        ("https" ++ "://" ++ ("www." ++ "youtube.com") ++ "/playlist?list=abc")).value
    ∧ get_ids ("https" ++ "://" ++ ("music." ++ "youtube.com") ++ "/playlist?list=abc")
        (fun _ => Except.error "e") (fun _ => Except.error "e")
        (fun _ => Except.error "e")
      = get_ids ("https" ++ "://" ++ ("www." ++ "youtube.com") ++ "/playlist?list=abc")
        (fun _ => Except.error "e") (fun _ => Except.error "e")
        (fun _ => Except.error "e") := by
  have h := C9_music_host_equiv_www_host "https" "youtube.com"
    "/playlist?list=abc" (Or.inr rfl) (by decide) (by decide) rfl
  exact ⟨h.1, h.2 (fun _ => Except.error "e") (fun _ => Except.error "e")
    (fun _ => Except.error "e")⟩

/-- C10: `music_to_www` rewrites the host of every parseable URL whose
host is not already `www.youtube.com` — including hosts unrelated to the
music source, such as `example.com` — and returns the input unchanged
(borrowed) exactly when the URL fails to parse or already has the
canonical host (setting the fixed valid host `www.youtube.com` on a
parsed http(s) URL never fails). -/
theorem C10_music_to_www_behavior (s : String) :
    music_to_www "https://example.com/a"
        = Cow.owned "https://www.youtube.com/a"
  ∧ (∀ u : Url, urlParse s = some u → u.host ≠ "www.youtube.com" →
      music_to_www s
        = Cow.owned (Url.serialize { u with host := "www.youtube.com" }))
  ∧ (urlParse s = none → music_to_www s = Cow.borrowed s)
  ∧ (∀ u : Url, urlParse s = some u → u.host = "www.youtube.com" →
      music_to_www s = Cow.borrowed s) := by
  refine ⟨?_, ?_, ?_, ?_⟩
  · rfl
  · intro u hp hh
    unfold music_to_www
    rw [hp]
    show (if u.host ≠ "www.youtube.com" then
        Cow.owned (Url.serialize { u with host := "www.youtube.com" })
      else Cow.borrowed s) = _
    rw [if_pos hh]
  · intro hp
    unfold music_to_www
    rw [hp]
  · intro u hp hh
    unfold music_to_www
    rw [hp]
    show (if u.host ≠ "www.youtube.com" then
        Cow.owned (Url.serialize { u with host := "www.youtube.com" })
      else Cow.borrowed s) = _
    rw [if_neg (not_not_intro hh)]

/-- Witness for C10 at concrete URLs: an unrelated parseable host is
rewritten; an unparseable string and an already-canonical URL come back
borrowed. -/
theorem C10_music_to_www_behavior_witness :
    music_to_www "http://music.example.org/p"
      = Cow.owned (Url.serialize ⟨"http", "www.youtube.com", "/p"⟩)
    ∧ music_to_www "notaurl" = Cow.borrowed "notaurl"
    ∧ music_to_www "https://www.youtube.com/playlist?list=x"
      = Cow.borrowed "https://www.youtube.com/playlist?list=x" := by
  refine ⟨?_, ?_, ?_⟩
  · exact (C10_music_to_www_behavior "http://music.example.org/p").2.1
      ⟨"http", "music.example.org", "/p"⟩ rfl (by decide)
  · exact (C10_music_to_www_behavior "notaurl").2.2.1 rfl
  · exact (C10_music_to_www_behavior
      "https://www.youtube.com/playlist?list=x").2.2.2
      ⟨"https", "www.youtube.com", "/playlist?list=x"⟩ rfl rfl

end Ytmdl
